import Mathlib

/-!
Shallow embedding of `cli/rmaker_lib/node.py` (class `Node`) from the
esp-rainmaker repository, together with proofs about its request/response
contract: request construction, HTTP/TLS/network error classification,
JSON payload interpretation, and the user-node mapping workflow.

The transport (`requests.get` / `requests.put`) is modelled as an oracle
mapping each issued request to an outcome; each method of the embedding
returns the list of requests it issued (its wire trace) together with its
result, an `Except` over the Python exceptions the method can raise.
-/

set_option autoImplicit false

/-- JSON values as produced by Python's `json.loads`: objects are decoded to
dicts (modelled as association lists; keys are unique after decoding),
arrays to lists, strings/numbers/booleans/null to the corresponding scalars. -/
inductive Json where
  | null
  | bool (b : Bool)
  | num (n : Int)
  | str (s : String)
  | arr (elems : List Json)
  | obj (fields : List (String × Json))

/-- Lookup of a key in a decoded JSON object (indexing into the Python `dict`
produced by `json.loads`); `none` on non-objects, which carry no fields. -/
def Json.getField : Json → String → Option Json
  | .obj fields, key => (fields.find? (fun p => p.1 == key)).map (fun p => p.2)
  | _, _ => none

/-- Exceptions surfaced by `node.py`, following the names of the classes the
code raises: `SSLError` and `NetworkError` from `rmaker_lib.exceptions`
(the spec calls them TLSError/NetworkError), `InvalidClassInput` (the spec's
InvalidInputError), the generic `Exception(response.text)` raised after
`raise_for_status` (the spec's generic HTTPError, carrying the response
body), Python's built-in `TypeError`, and the JSON decode error raised by
`json.loads` / `response.json()` on malformed text. -/
inductive PyError where
  | sslError
  | networkError
  | httpError (text : String)
  | typeError
  | invalidClassInput
  | jsonDecodeError

/-- Bool-valued test that a list of characters occurs at the head of
another (used to embed Python's substring test). -/
def charsHeadOf : List Char → List Char → Bool
  | [], _ => true
  | _ :: _, [] => false
  | a :: as, b :: bs => a == b && charsHeadOf as bs

/-- Bool-valued test that a list of characters occurs contiguously inside
another (used to embed Python's substring test). -/
def charsWithin (needle : List Char) : List Char → Bool
  | [] => charsHeadOf needle []
  | b :: bs => charsHeadOf needle (b :: bs) || charsWithin needle bs

/-- Python equality of a decoded JSON value against a string (only a decoded
string can compare equal to a `str`). -/
def pyStrEq (key : String) : Json → Bool
  | .str s => s == key
  | _ => false

/-- Python's substring test `key in haystack` on two strings. -/
def pyStrContains (haystack key : String) : Bool :=
  charsWithin key.toList haystack.toList

/-- Python's `key in response` on a decoded JSON value: key membership for a
dict, element equality for a list, substring test for a string, and a
`TypeError` for values that are not containers (numbers, booleans, null). -/
def pyContains (key : String) : Json → Except PyError Bool
  | .obj fields => .ok (fields.find? (fun p => p.1 == key)).isSome
  | .arr elems => .ok (elems.any (pyStrEq key))
  | .str s => .ok (pyStrContains s key)
  | _ => .error .typeError

/-- Python's `response[key]` on a decoded JSON value: dict lookup for an
object (`KeyError` is unreachable in `node.py`, which only indexes after a
successful membership test, so absence is folded into `typeError` here), and
a `TypeError` for every non-dict value, since `node.py` only ever indexes
with a string key. -/
def pyGetItem (j : Json) (key : String) : Except PyError Json :=
  match j with
  | .obj fields =>
      match fields.find? (fun p => p.1 == key) with
      | some p => .ok p.2
      | none => .error .typeError
  | _ => .error .typeError

/-- HTTP method of a request issued by `node.py` (it uses only GET and PUT). -/
inductive HttpMethod where
  | get
  | put

/-- Request as put on the wire by `requests.get` / `requests.put` in
`node.py`: method, full URL string, headers, and the JSON body (for PUTs,
which send `json.dumps` of a dict). -/
structure Request where
  method : HttpMethod
  url : String
  headers : List (String × String)
  body : Option Json

/-- Body of a received response: either text that decodes to a JSON value or
malformed text on which `json.loads` / `response.json()` raises. -/
inductive Body where
  | json (j : Json)
  | malformed

/-- Outcome of one transport call as observed by the `except` clauses in
`node.py`: `requests.exceptions.SSLError`, a non-SSL
`requests.exceptions.ConnectionError`, or a completed HTTP response with a
status code, raw text, and the decoding of that text. -/
inductive HttpOutcome where
  | sslFailure
  | connectionFailure
  | response (status : Nat) (text : String) (body : Body)

/-- Semantics of `response.raise_for_status()` in the `requests` library: it
raises `requests.exceptions.HTTPError` exactly for status codes in 400..599
(client and server errors); informational and redirect statuses do not
raise. -/
def raiseForStatus (status : Nat) : Bool :=
  decide (400 ≤ status) && decide (status < 600)

/-- Shared shape of every try-block in `node.py`: the ordered `except`
clauses map an SSL failure to `SSLError`, any other connection failure to
`NetworkError` (the SSL clause comes first, so the two are never conflated
even though `requests` derives SSLError from ConnectionError), and the
`HTTPError` from `raise_for_status` falls to the final clause, which raises
carrying the raw response text. A surviving response is passed on. -/
def classifyOutcome (o : HttpOutcome) : Except PyError (Nat × String × Body) :=
  match o with
  | .sslFailure => .error .sslError
  | .connectionFailure => .error .networkError
  | .response status text body =>
      if raiseForStatus status then .error (.httpError text)
      else .ok (status, text, body)

/-- Session object handed to the `Node` constructor: `id_token = none` models
an object on which accessing the `id_token` attribute raises
`AttributeError` (a session lacking the token accessor). -/
structure Session where
  id_token : Option String

/-- Client state built by `Node.__init__`: the node id, the stored session,
and the request header computed once at construction. -/
structure NodeClient where
  nodeid : String
  session : Session
  request_header : List (String × String)

/-- Embedding of `Node.__init__` (node.py lines 33-46): store the node id and
session, build the header from the session's token, and raise
`InvalidClassInput` when accessing the token raises `AttributeError`. The
constructor issues no transport call, which the empty trace records. -/
def Node.init (nodeid : String) (session : Session) :
    List Request × Except PyError NodeClient :=
  match session.id_token with
  | some token =>
      ([], .ok { nodeid := nodeid, session := session,
                 request_header := [("content-type", "application/json"),
                                    ("Authorization", token)] })
  | none => ([], .error .invalidClassInput)

/-- Request built by `Node.get_node_status` (node.py lines 70-77):
GET `HOST + 'user/nodes/status' + '?' + 'nodeid=' + nodeid`. -/
def get_node_status_request (host : String) (n : NodeClient) : Request :=
  { method := .get,
    url := host ++ "user/nodes/status" ++ "?" ++ ("nodeid=" ++ n.nodeid),
    headers := n.request_header,
    body := none }

/-- Response interpretation of `Node.get_node_status` (node.py lines 73-87):
classify the outcome, then return `response.json()`. -/
def get_node_status_interp (o : HttpOutcome) : Except PyError Json :=
  match classifyOutcome o with
  | .error e => .error e
  | .ok (_, _, .json j) => .ok j
  | .ok (_, _, .malformed) => .error .jsonDecodeError

/-- Embedding of `Node.get_node_status` (node.py lines 57-87): one GET, then
interpretation of its outcome. -/
def get_node_status_run (host : String) (n : NodeClient)
    (transport : Request → HttpOutcome) :
    List Request × Except PyError Json :=
  let req := get_node_status_request host n
  ([req], get_node_status_interp (transport req))

/-- Request built by `Node.get_node_config` (node.py lines 101-108):
GET `HOST + 'user/nodes/config' + '?' + 'nodeid=' + nodeid`. -/
def get_node_config_request (host : String) (n : NodeClient) : Request :=
  { method := .get,
    url := host ++ "user/nodes/config" ++ "?" ++ ("nodeid=" ++ n.nodeid),
    headers := n.request_header,
    body := none }

/-- Response interpretation of `Node.get_node_config` (node.py lines
104-118), identical in shape to `get_node_status`. -/
def get_node_config_interp (o : HttpOutcome) : Except PyError Json :=
  match classifyOutcome o with
  | .error e => .error e
  | .ok (_, _, .json j) => .ok j
  | .ok (_, _, .malformed) => .error .jsonDecodeError

/-- Embedding of `Node.get_node_config` (node.py lines 89-118). -/
def get_node_config_run (host : String) (n : NodeClient)
    (transport : Request → HttpOutcome) :
    List Request × Except PyError Json :=
  let req := get_node_config_request host n
  ([req], get_node_config_interp (transport req))

/-- Request built by `Node.get_node_params` (node.py lines 135-142):
GET `HOST + 'user/nodes/params' + '?' + 'nodeid=' + nodeid`. -/
def get_node_params_request (host : String) (n : NodeClient) : Request :=
  { method := .get,
    url := host ++ "user/nodes/params" ++ "?" ++ ("nodeid=" ++ n.nodeid),
    headers := n.request_header,
    body := none }

/-- Embedding of node.py lines 152-156: after `json.loads`, evaluate
`if 'status' in response and response['status'] == 'failure': return None`
with Python's short-circuit `and`, membership, and indexing semantics, else
return the decoded payload. -/
def params_soft_failure_check (j : Json) : Except PyError (Option Json) :=
  match pyContains "status" j with
  | .error e => .error e
  | .ok false => .ok (some j)
  | .ok true =>
      match pyGetItem j "status" with
      | .error e => .error e
      | .ok (.str s) => if s == "failure" then .ok none else .ok (some j)
      | .ok _ => .ok (some j)

/-- Response interpretation of `Node.get_node_params` (node.py lines
138-156): classify the outcome, decode with `json.loads`, then apply the
soft-failure check. -/
def get_node_params_interp (o : HttpOutcome) : Except PyError (Option Json) :=
  match classifyOutcome o with
  | .error e => .error e
  | .ok (_, _, .malformed) => .error .jsonDecodeError
  | .ok (_, _, .json j) => params_soft_failure_check j

/-- Embedding of `Node.get_node_params` (node.py lines 120-156). -/
def get_node_params_run (host : String) (n : NodeClient)
    (transport : Request → HttpOutcome) :
    List Request × Except PyError (Option Json) :=
  let req := get_node_params_request host n
  ([req], get_node_params_interp (transport req))

/-- Request built by `Node.set_node_params` (node.py lines 175-184):
PUT `HOST + 'user/nodes/params' + '?' + 'nodeid=' + nodeid` with
`json.dumps(data)` as body. -/
def set_node_params_request (host : String) (n : NodeClient) (data : Json) :
    Request :=
  { method := .put,
    url := host ++ "user/nodes/params" ++ "?" ++ ("nodeid=" ++ n.nodeid),
    headers := n.request_header,
    body := some data }

/-- Response interpretation of `Node.set_node_params` (node.py lines
178-194): classify the outcome and return `True`; the response body is never
inspected (it is only logged). -/
def set_node_params_interp (o : HttpOutcome) : Except PyError Bool :=
  match classifyOutcome o with
  | .error e => .error e
  | .ok _ => .ok true

/-- Embedding of `Node.set_node_params` (node.py lines 158-194). -/
def set_node_params_run (host : String) (n : NodeClient) (data : Json)
    (transport : Request → HttpOutcome) :
    List Request × Except PyError Bool :=
  let req := set_node_params_request host n data
  ([req], set_node_params_interp (transport req))

/-- JSON body of the mapping PUT (node.py lines 219-224): the dict
`{'user_id': userid, 'node_id': nodeid, 'secret_key': secret_key,
'operation': operation}` in its insertion order. -/
def mapping_payload (userid nodeid secret_key operation : String) : Json :=
  .obj [("user_id", .str userid),
        ("node_id", .str nodeid),
        ("secret_key", .str secret_key),
        ("operation", .str operation)]

/-- Request built by `Node.__user_node_mapping` (node.py lines 226-234):
PUT `HOST + 'user/nodes/mapping'` (no query string) with the mapping payload
as body. -/
def user_node_mapping_request (host : String) (n : NodeClient)
    (userid secret_key operation : String) : Request :=
  { method := .put,
    url := host ++ "user/nodes/mapping",
    headers := n.request_header,
    body := some (mapping_payload userid n.nodeid secret_key operation) }

/-- Shared tail of `Node.__user_node_mapping` (node.py lines 249-251) and
`Node.get_mapping_status` (node.py lines 334-336): evaluate
`if key in response: return response[key]` with Python's membership and
indexing semantics, returning `None` when the test is false. -/
def correlation_field_check (key : String) (j : Json) :
    Except PyError (Option Json) :=
  match pyContains key j with
  | .error e => .error e
  | .ok false => .ok none
  | .ok true =>
      match pyGetItem j key with
      | .error e => .error e
      | .ok v => .ok (some v)

/-- Response interpretation of `Node.__user_node_mapping` (node.py lines
227-251): classify the outcome, decode with `json.loads`, then evaluate
`if 'request_id' in response: return response['request_id']`, returning
`None` otherwise. -/
def user_node_mapping_interp (o : HttpOutcome) :
    Except PyError (Option Json) :=
  match classifyOutcome o with
  | .error e => .error e
  | .ok (_, _, .malformed) => .error .jsonDecodeError
  | .ok (_, _, .json j) => correlation_field_check "request_id" j

/-- Embedding of `Node.__user_node_mapping` (node.py lines 196-251). The
user id is read from the external identity store
(`configmanager.Config().get_user_id()`) at call time, before the request is
built; `userIdLookup` is that lookup's result. When it raises, the exception
propagates and no request is put on the wire. -/
def user_node_mapping_run (host : String) (n : NodeClient)
    (userIdLookup : Except PyError String)
    (transport : Request → HttpOutcome) (secret_key operation : String) :
    List Request × Except PyError (Option Json) :=
  match userIdLookup with
  | .error e => ([], .error e)
  | .ok userid =>
      let req := user_node_mapping_request host n userid secret_key operation
      ([req], user_node_mapping_interp (transport req))

/-- Embedding of `Node.add_user_node_mapping` (node.py lines 253-272): the
private primitive with `operation = 'add'`. -/
def add_user_node_mapping_run (host : String) (n : NodeClient)
    (userIdLookup : Except PyError String)
    (transport : Request → HttpOutcome) (secret_key : String) :
    List Request × Except PyError (Option Json) :=
  user_node_mapping_run host n userIdLookup transport secret_key "add"

/-- Embedding of `Node.remove_user_node_mapping` (node.py lines 274-289): the
private primitive with `secret_key = ""` and `operation = 'remove'`. -/
def remove_user_node_mapping_run (host : String) (n : NodeClient)
    (userIdLookup : Except PyError String)
    (transport : Request → HttpOutcome) :
    List Request × Except PyError (Option Json) :=
  user_node_mapping_run host n userIdLookup transport "" "remove"

/-- Request built by `Node.get_mapping_status` (node.py lines 309-318):
GET `HOST + 'user/nodes/mapping' + '?' + ('&request_id=' + request_id)` —
the query string deliberately reproduces the code's bare `?` followed
immediately by `&request_id=`. -/
def get_mapping_status_request (host : String) (n : NodeClient)
    (request_id : String) : Request :=
  { method := .get,
    url := host ++ "user/nodes/mapping" ++ "?" ++ ("&request_id=" ++ request_id),
    headers := n.request_header,
    body := none }

/-- Response interpretation of `Node.get_mapping_status` (node.py lines
313-336): classify the outcome (here the final `except` clause re-raises the
original `HTTPError` from `raise_for_status`, whose attached response holds
the same raw body the other methods wrap in `Exception(response.text)`;
both are modelled as `httpError text`), decode, then evaluate
`if 'request_status' in response: return response['request_status']`,
returning `None` otherwise. -/
def get_mapping_status_interp (o : HttpOutcome) :
    Except PyError (Option Json) :=
  match classifyOutcome o with
  | .error e => .error e
  | .ok (_, _, .malformed) => .error .jsonDecodeError
  | .ok (_, _, .json j) => correlation_field_check "request_status" j

/-- Embedding of `Node.get_mapping_status` (node.py lines 291-336). -/
def get_mapping_status_run (host : String) (n : NodeClient)
    (request_id : String) (transport : Request → HttpOutcome) :
    List Request × Except PyError (Option Json) :=
  let req := get_mapping_status_request host n request_id
  ([req], get_mapping_status_interp (transport req))

/-- Sample session exposing a token, for concrete witnesses. -/
def sampleSession : Session := { id_token := some "token123" }

/-- Sample client as built by `Node.init` from `sampleSession`, for concrete
witnesses. -/
def sampleClient : NodeClient :=
  { nodeid := "abcd1234", session := sampleSession,
    request_header := [("content-type", "application/json"),
                       ("Authorization", "token123")] }

/-- Transport oracle answering every request with a 200 response whose body
is not valid JSON, for concrete witnesses. -/
def transport200malformed : Request → HttpOutcome :=
  fun _ => .response 200 "ignored" .malformed

/-- Statuses below 400 do not trip `raise_for_status`. -/
theorem raiseForStatus_eq_false {st : Nat} (h : st < 400) :
    raiseForStatus st = false := by
  unfold raiseForStatus
  rw [decide_eq_false (by omega)]
  rfl

/-- Statuses in 400..599 trip `raise_for_status`. -/
theorem raiseForStatus_eq_true {st : Nat} (h1 : 400 ≤ st) (h2 : st < 600) :
    raiseForStatus st = true := by
  unfold raiseForStatus
  rw [decide_eq_true h1, decide_eq_true h2]
  rfl

/-- On a response whose status does not trip `raise_for_status`, the
classification of every try-block passes the response through. -/
theorem classifyOutcome_pass {st : Nat} (text : String) (body : Body)
    (h : st < 400) :
    classifyOutcome (.response st text body) = .ok (st, text, body) := by
  simp [classifyOutcome, raiseForStatus_eq_false h]

/-- On a 4xx/5xx response, the classification of every try-block raises the
generic error carrying the raw response text. -/
theorem classifyOutcome_raise {st : Nat} (text : String) (body : Body)
    (h1 : 400 ≤ st) (h2 : st < 600) :
    classifyOutcome (.response st text body) = .error (.httpError text) := by
  simp [classifyOutcome, raiseForStatus_eq_true h1 h2]

/-- On a decodable sub-400 response, `get_node_params` interpretation reduces
to the soft-failure check on the decoded payload. -/
theorem get_node_params_interp_decode {st : Nat} (text : String) (j : Json)
    (h : st < 400) :
    get_node_params_interp (.response st text (.json j)) =
      params_soft_failure_check j := by
  unfold get_node_params_interp
  rw [classifyOutcome_pass text (.json j) h]

/-- On a decodable sub-400 response, the mapping primitive's interpretation
reduces to the `request_id` field check on the decoded payload. -/
theorem user_node_mapping_interp_decode {st : Nat} (text : String) (j : Json)
    (h : st < 400) :
    user_node_mapping_interp (.response st text (.json j)) =
      correlation_field_check "request_id" j := by
  unfold user_node_mapping_interp
  rw [classifyOutcome_pass text (.json j) h]

/-- On a decodable sub-400 response, `get_mapping_status` interpretation
reduces to the `request_status` field check on the decoded payload. -/
theorem get_mapping_status_interp_decode {st : Nat} (text : String) (j : Json)
    (h : st < 400) :
    get_mapping_status_interp (.response st text (.json j)) =
      correlation_field_check "request_status" j := by
  unfold get_mapping_status_interp
  rw [classifyOutcome_pass text (.json j) h]

/-- On a JSON object payload, the correlation-field check never raises and
returns exactly the field's lookup result. -/
theorem correlation_field_check_obj (key : String)
    (fields : List (String × Json)) :
    correlation_field_check key (.obj fields) =
      .ok (Json.getField (.obj fields) key) := by
  unfold correlation_field_check pyContains pyGetItem Json.getField
  cases hfind : fields.find? (fun p => p.1 == key) <;> simp [hfind]

/-- Claim C4: constructing a NodeClient performs no network I/O (the trace of
issued requests is empty); for every (nodeid, session) it succeeds and
builds the header `{content-type: application/json, Authorization: token}`
when the session exposes the token accessor, and raises the invalid-input
error (`InvalidClassInput`, the spec's InvalidInputError) when the session
lacks it. -/
theorem node_construction_spec (nodeid : String) (session : Session) :
    (Node.init nodeid session).1 = [] ∧
    (∀ token, session.id_token = some token →
      Node.init nodeid session =
        ([], .ok { nodeid := nodeid, session := session,
                   request_header := [("content-type", "application/json"),
                                      ("Authorization", token)] })) ∧
    (session.id_token = none →
      Node.init nodeid session = ([], .error .invalidClassInput)) := by
  obtain ⟨tok⟩ := session
  cases tok <;> simp [Node.init]

/-- Witness for C4: a session with a token yields the client with the
computed header, and a session lacking the accessor yields the
invalid-input error. -/
theorem node_construction_spec_witness :
    Node.init "abcd1234" { id_token := some "token123" } =
      ([], .ok { nodeid := "abcd1234", session := { id_token := some "token123" },
                 request_header := [("content-type", "application/json"),
                                    ("Authorization", "token123")] }) ∧
    Node.init "abcd1234" { id_token := none } =
      ([], .error .invalidClassInput) :=
  ⟨(node_construction_spec "abcd1234" { id_token := some "token123" }).2.1
      "token123" rfl,
   (node_construction_spec "abcd1234" { id_token := none }).2.2 rfl⟩

/-- Claim C5: for every operation of the client, a TLS-specific transport
failure raises `SSLError` (the spec's TLSError) and a generic
connection-level failure raises `NetworkError`; the two classifications are
distinct errors and are never confused for each other, and a failing call is
not retried: the trace still holds exactly the one issued request. -/
theorem transport_failure_classification (host : String) (n : NodeClient)
    (u secret_key request_id : String) (data : Json) :
    get_node_status_interp .sslFailure = .error .sslError ∧
    get_node_status_interp .connectionFailure = .error .networkError ∧
    get_node_config_interp .sslFailure = .error .sslError ∧
    get_node_config_interp .connectionFailure = .error .networkError ∧
    get_node_params_interp .sslFailure = .error .sslError ∧
    get_node_params_interp .connectionFailure = .error .networkError ∧
    set_node_params_interp .sslFailure = .error .sslError ∧
    set_node_params_interp .connectionFailure = .error .networkError ∧
    user_node_mapping_interp .sslFailure = .error .sslError ∧
    user_node_mapping_interp .connectionFailure = .error .networkError ∧
    get_mapping_status_interp .sslFailure = .error .sslError ∧
    get_mapping_status_interp .connectionFailure = .error .networkError ∧
    PyError.sslError ≠ PyError.networkError ∧
    (get_node_status_run host n (fun _ => .sslFailure)).1.length = 1 ∧
    (get_node_config_run host n (fun _ => .sslFailure)).1.length = 1 ∧
    (get_node_params_run host n (fun _ => .sslFailure)).1.length = 1 ∧
    (set_node_params_run host n data (fun _ => .sslFailure)).1.length = 1 ∧
    (add_user_node_mapping_run host n (.ok u)
        (fun _ => .connectionFailure) secret_key).1.length = 1 ∧
    (remove_user_node_mapping_run host n (.ok u)
        (fun _ => .connectionFailure)).1.length = 1 ∧
    (get_mapping_status_run host n request_id
        (fun _ => .connectionFailure)).1.length = 1 := by
  refine ⟨rfl, rfl, rfl, rfl, rfl, rfl, rfl, rfl, rfl, rfl, rfl, rfl, ?_,
    rfl, rfl, rfl, rfl, rfl, rfl, rfl⟩
  intro h
  exact PyError.noConfusion h

/-- Claim C7: for every dict `data` and every 2xx response,
`set_node_params(data)` returns `True` regardless of the response body
(well-formed JSON, malformed text alike); the body is not interpreted for
the call's result. -/
theorem set_node_params_true_on_2xx (host : String) (n : NodeClient)
    (data : Json) (transport : Request → HttpOutcome) (st : Nat)
    (text : String) (body : Body) (h1 : 200 ≤ st) (h2 : st < 300)
    (htr : transport (set_node_params_request host n data) =
      .response st text body) :
    (set_node_params_run host n data transport).2 = .ok true := by
  have hpass := classifyOutcome_pass text body (show st < 400 by omega)
  simp [set_node_params_run, htr, set_node_params_interp, hpass]

/-- Witness for C7: a 200 response with a malformed body still yields
`True`. -/
theorem set_node_params_true_on_2xx_witness :
    (set_node_params_run "https://host/" sampleClient (Json.obj [])
        transport200malformed).2 = .ok true :=
  set_node_params_true_on_2xx "https://host/" sampleClient (Json.obj [])
    transport200malformed 200 "ignored" .malformed (by decide) (by decide) rfl

/-- Claim C9: every public operation of the client (status, config, get/set
params, mapping add/remove, mapping status) performs exactly one network
round trip per invocation — for every transport oracle, its trace holds
exactly one request, so no transport call is ever retried internally. -/
theorem single_round_trip (host : String) (n : NodeClient)
    (u secret_key request_id : String) (data : Json)
    (transport : Request → HttpOutcome) :
    (get_node_status_run host n transport).1.length = 1 ∧
    (get_node_config_run host n transport).1.length = 1 ∧
    (get_node_params_run host n transport).1.length = 1 ∧
    (set_node_params_run host n data transport).1.length = 1 ∧
    (add_user_node_mapping_run host n (.ok u) transport
        secret_key).1.length = 1 ∧
    (remove_user_node_mapping_run host n (.ok u) transport).1.length = 1 ∧
    (get_mapping_status_run host n request_id transport).1.length = 1 :=
  ⟨rfl, rfl, rfl, rfl, rfl, rfl, rfl⟩

/-- Claim C10: in the mapping primitive, the user id is fetched from the
identity store strictly before any request is built or issued; when that
lookup raises, the error propagates unchanged to the caller and the wire
trace is empty — no HTTP request is sent. The same holds through both
public wrappers. -/
theorem mapping_aborts_on_user_id_failure (host : String) (n : NodeClient)
    (e : PyError) (transport : Request → HttpOutcome)
    (secret_key operation : String) :
    user_node_mapping_run host n (.error e) transport secret_key operation =
      ([], .error e) ∧
    add_user_node_mapping_run host n (.error e) transport secret_key =
      ([], .error e) ∧
    remove_user_node_mapping_run host n (.error e) transport =
      ([], .error e) :=
  ⟨rfl, rfl, rfl⟩

/-- Analysis of the soft-failure check over every decoded JSON shape: it
returns `none` exactly when the payload is an object whose `status` field is
the string `"failure"`, and it returns every object payload without that
field value unchanged (non-object payloads can instead raise `TypeError`
through Python's membership or indexing semantics). -/
theorem params_soft_failure_check_spec (j : Json) :
    (params_soft_failure_check j = .ok none ↔
      j.getField "status" = some (.str "failure")) ∧
    (∀ fields, j = .obj fields →
      j.getField "status" ≠ some (.str "failure") →
      params_soft_failure_check j = .ok (some j)) := by
  cases j with
  | null => simp [params_soft_failure_check, pyContains, Json.getField]
  | bool b => simp [params_soft_failure_check, pyContains, Json.getField]
  | num n => simp [params_soft_failure_check, pyContains, Json.getField]
  | str s =>
      cases h : pyStrContains s "status" <;>
        simp [params_soft_failure_check, pyContains, pyGetItem, Json.getField, h]
  | arr elems =>
      cases h : elems.any (pyStrEq "status") <;>
        simp [params_soft_failure_check, pyContains, pyGetItem, Json.getField, h]
  | obj fields =>
      cases hfind : fields.find? (fun p => p.1 == "status") with
      | none =>
          simp [params_soft_failure_check, pyContains, pyGetItem,
                Json.getField, hfind]
      | some p =>
          obtain ⟨k, v⟩ := p
          cases v with
          | str s =>
              by_cases hs : s = "failure"
              · subst hs
                simp [params_soft_failure_check, pyContains, pyGetItem,
                      Json.getField, hfind]
              · simp [params_soft_failure_check, pyContains, pyGetItem,
                      Json.getField, hfind, hs]
          | null =>
              simp [params_soft_failure_check, pyContains, pyGetItem,
                    Json.getField, hfind]
          | bool b =>
              simp [params_soft_failure_check, pyContains, pyGetItem,
                    Json.getField, hfind]
          | num m =>
              simp [params_soft_failure_check, pyContains, pyGetItem,
                    Json.getField, hfind]
          | arr es =>
              simp [params_soft_failure_check, pyContains, pyGetItem,
                    Json.getField, hfind]
          | obj fs =>
              simp [params_soft_failure_check, pyContains, pyGetItem,
                    Json.getField, hfind]

/-- Claim C1 (amended): for every well-formed JSON response after a 2xx
status, `get_node_params` returns `None` if and only if the decoded payload
is a JSON object containing a field `status` whose value is `"failure"`;
every other well-formed JSON object payload is returned unchanged.
(Non-object payloads are not always returned unchanged: Python's membership
and indexing can raise `TypeError` on them, see the counterexample.) -/
theorem get_node_params_soft_failure (st : Nat) (text : String) (j : Json)
    (h1 : 200 ≤ st) (h2 : st < 300) :
    (get_node_params_interp (.response st text (.json j)) = .ok none ↔
      j.getField "status" = some (.str "failure")) ∧
    (∀ fields, j = .obj fields →
      j.getField "status" ≠ some (.str "failure") →
      get_node_params_interp (.response st text (.json j)) = .ok (some j)) := by
  rw [get_node_params_interp_decode text j (by omega)]
  exact params_soft_failure_check_spec j

/-- Witness for C1 (amended): a 200 response `{"status": "failure"}` yields
`None`, and a 200 response `{"connectivity": true}` is returned unchanged. -/
theorem get_node_params_soft_failure_witness :
    get_node_params_interp (.response 200 "resp"
        (.json (.obj [("status", .str "failure")]))) = .ok none ∧
    get_node_params_interp (.response 200 "resp"
        (.json (.obj [("connectivity", .bool true)]))) =
      .ok (some (.obj [("connectivity", .bool true)])) := by
  constructor
  · exact ((get_node_params_soft_failure 200 "resp"
      (.obj [("status", .str "failure")]) (by decide) (by decide)).1).mpr rfl
  · exact (get_node_params_soft_failure 200 "resp"
      (.obj [("connectivity", .bool true)]) (by decide) (by decide)).2
      [("connectivity", Json.bool true)] rfl
      (fun hcontra => Option.noConfusion hcontra)

/-- Counterexample to claim C1 as stated: the JSON text `5` is well-formed
and its decoded payload carries no `status` field, so the claim requires
`get_node_params` to return it unchanged after a 200 status; the code
instead raises `TypeError` at `'status' in response`, because an `int` is
not a container. -/
theorem get_node_params_nonobject_raises :
    get_node_params_interp (.response 200 "5" (.json (.num 5))) =
      .error .typeError ∧
    (Json.num 5).getField "status" = none :=
  ⟨rfl, rfl⟩

/-- Claim C3 (amended): for every well-formed JSON object response after a
2xx status, the mapping primitive returns exactly the lookup of
`request_id` (so `None` when the field is absent, its value when present)
and `get_mapping_status` returns exactly the lookup of `request_status`, in
both cases without raising. (Non-object payloads can instead raise
`TypeError`, see the counterexample.) -/
theorem mapping_correlation_fields (st : Nat) (text : String)
    (fields gs : List (String × Json)) (h1 : 200 ≤ st) (h2 : st < 300) :
    user_node_mapping_interp (.response st text (.json (.obj fields))) =
      .ok (Json.getField (.obj fields) "request_id") ∧
    get_mapping_status_interp (.response st text (.json (.obj gs))) =
      .ok (Json.getField (.obj gs) "request_status") := by
  rw [user_node_mapping_interp_decode text (.obj fields) (by omega),
      get_mapping_status_interp_decode text (.obj gs) (by omega)]
  exact ⟨correlation_field_check_obj "request_id" fields,
         correlation_field_check_obj "request_status" gs⟩

/-- Witness for C3 (amended): a 200 response `{"request_id": "req-42"}`
yields `"req-42"` from the mapping primitive, and a 200 response `{}` yields
`None` from `get_mapping_status`. -/
theorem mapping_correlation_fields_witness :
    user_node_mapping_interp (.response 200 "resp"
        (.json (.obj [("request_id", .str "req-42")]))) =
      .ok (some (.str "req-42")) ∧
    get_mapping_status_interp (.response 200 "resp" (.json (.obj []))) =
      .ok none := by
  have h := mapping_correlation_fields 200 "resp"
    [("request_id", Json.str "req-42")] [] (by decide) (by decide)
  exact ⟨h.1, h.2⟩

/-- Counterexample to claim C3 as stated: the JSON text `5` is well-formed
and carries neither correlation field, so the claim requires both methods to
return `None` without raising after a 200 status; the code instead raises
`TypeError` at the membership test, because an `int` is not a container. -/
theorem mapping_correlation_nonobject_raises :
    user_node_mapping_interp (.response 200 "5" (.json (.num 5))) =
      .error .typeError ∧
    get_mapping_status_interp (.response 200 "5" (.json (.num 5))) =
      .error .typeError :=
  ⟨rfl, rfl⟩

/-- Claim C6 (amended): for every method of the client and every response
with a 4xx or 5xx status (the statuses `raise_for_status` raises on) that is
not classified as a TLS or connection failure, the method raises the generic
HTTP error carrying the raw response body as context; every method is a
total interpretation that either returns a successful decoded result or
raises. (Non-2xx statuses outside 400..599, such as 304, are not raised on:
see the counterexample.) -/
theorem http_error_on_4xx_5xx (st : Nat) (text : String) (body : Body)
    (h1 : 400 ≤ st) (h2 : st < 600) :
    get_node_status_interp (.response st text body) =
      .error (.httpError text) ∧
    get_node_config_interp (.response st text body) =
      .error (.httpError text) ∧
    get_node_params_interp (.response st text body) =
      .error (.httpError text) ∧
    set_node_params_interp (.response st text body) =
      .error (.httpError text) ∧
    user_node_mapping_interp (.response st text body) =
      .error (.httpError text) ∧
    get_mapping_status_interp (.response st text body) =
      .error (.httpError text) := by
  have hr := classifyOutcome_raise text body h1 h2
  simp [get_node_status_interp, get_node_config_interp,
        get_node_params_interp, set_node_params_interp,
        user_node_mapping_interp, get_mapping_status_interp, hr]

/-- Witness for C6 (amended): a 404 response raises the generic HTTP error
carrying the body `"not found"`, and a 500 response on the params PUT raises
it carrying the body `"err"`. -/
theorem http_error_on_4xx_5xx_witness :
    get_node_status_interp (.response 404 "not found" .malformed) =
      .error (.httpError "not found") ∧
    set_node_params_interp (.response 500 "err" (.json (.obj []))) =
      .error (.httpError "err") :=
  ⟨(http_error_on_4xx_5xx 404 "not found" .malformed
      (by decide) (by decide)).1,
   (http_error_on_4xx_5xx 500 "err" (.json (.obj []))
      (by decide) (by decide)).2.2.2.1⟩

/-- Counterexample to claim C6 as stated: 304 is a non-2xx status and is not
a TLS or connection failure, so the claim requires a generic HTTP error; but
`raise_for_status` only raises for 400..599, so the code decodes the body
and returns it successfully. -/
theorem redirect_status_not_raised :
    get_node_status_interp (.response 304 "{}" (.json (.obj []))) =
      .ok (.obj []) :=
  rfl

/-- Claim C2: for every secret key `s`, `add_user_node_mapping(s)` issues a
PUT to the mapping endpoint whose body is the dict
`{user_id, node_id, secret_key, operation}` with `operation = "add"` and
`secret_key = s`, and `remove_user_node_mapping()` issues a PUT to the same
endpoint with `operation = "remove"` and `secret_key = ""`; in both cases
`user_id` is the value fetched from the identity store at call time (it is a
per-call input, quantified here, not a field cached on the client). -/
theorem mapping_request_shape (host : String) (n : NodeClient)
    (userid secret_key : String) (transport : Request → HttpOutcome) :
    (add_user_node_mapping_run host n (.ok userid) transport secret_key).1 =
      [{ method := .put, url := host ++ "user/nodes/mapping",
         headers := n.request_header,
         body := some (.obj [("user_id", .str userid),
                             ("node_id", .str n.nodeid),
                             ("secret_key", .str secret_key),
                             ("operation", .str "add")]) }] ∧
    (remove_user_node_mapping_run host n (.ok userid) transport).1 =
      [{ method := .put, url := host ++ "user/nodes/mapping",
         headers := n.request_header,
         body := some (.obj [("user_id", .str userid),
                             ("node_id", .str n.nodeid),
                             ("secret_key", .str ""),
                             ("operation", .str "remove")]) }] :=
  ⟨rfl, rfl⟩

/-- Claim C8: for every request id, `get_mapping_status` issues a single GET
whose URL is the mapping path followed byte-for-byte by the query string
`?&request_id=<request_id>` — the bare `?` immediately followed by
`&request_id=`. -/
theorem mapping_status_request_url (host : String) (n : NodeClient)
    (request_id : String) (transport : Request → HttpOutcome) :
    (get_mapping_status_run host n request_id transport).1 =
      [get_mapping_status_request host n request_id] ∧
    (get_mapping_status_request host n request_id).method = .get ∧
    (get_mapping_status_request host n request_id).url =
      (host ++ "user/nodes/mapping") ++ ("?&request_id=" ++ request_id) := by
  refine ⟨rfl, rfl, ?_⟩
  show host ++ "user/nodes/mapping" ++ "?" ++ ("&request_id=" ++ request_id)
      = (host ++ "user/nodes/mapping") ++ ("?&request_id=" ++ request_id)
  rw [String.append_assoc,
      ← String.append_assoc "?" "&request_id=" request_id,
      show "?" ++ "&request_id=" = "?&request_id=" from rfl]
